import Mathlib

/-!
Verification of the client factory module
(src/main/python/apache/aurora/client/factory.py): resolution of a cluster
reference against the cluster registry, fail-fast reporting of unknown
clusters, and propagation of the configuration captured at factory-creation
time (user agent, verbosity, hook enablement).
-/

namespace AuroraFactory

/-- Cluster descriptor: a named target environment with connection metadata.
Modelled from the spec: the Cluster class (apache.aurora.common.cluster) is
not part of the analysed source; the spec describes a descriptor carrying a
name together with connection endpoint and zone metadata. -/
structure Cluster where
  name : String
  endpoint : String
  zone : String
deriving DecidableEq, Repr

/-- String rendering of a cluster descriptor, standing in for the Python
percent-s formatting of a Cluster object; it names the cluster. -/
def clusterStr (c : Cluster) : String :=
  "Cluster(name = " ++ c.name ++ ", endpoint = " ++ c.endpoint
    ++ ", zone = " ++ c.zone ++ ")"

/-- ClusterRegistry: the CLUSTERS mapping from cluster name to descriptor.
Modelled from the spec: apache.aurora.common.clusters is not part of the
analysed source; the spec specifies a read-only mapping from cluster name to
cluster descriptor, with contains and get keyed by the name. -/
abbrev Registry := List (String × Cluster)

/-- Cluster reference: either a cluster name or an already resolved cluster
object (the source tests isinstance(cluster, Cluster) in make_client). -/
inductive ClusterRef
  | name (s : String)
  | cluster (c : Cluster)
deriving DecidableEq, Repr

/-- Membership test of the bound constructor, Python cluster in CLUSTERS.
The registry keys are cluster names (strings), so only a name reference can
be found among them; a Cluster object never equals a string key. -/
def refInClusters (clusters : Registry) : ClusterRef → Bool
  | .name s => (clusters.lookup s).isSome
  | .cluster _ => false

/-- Registry indexing of the bound constructor, Python CLUSTERS[cluster],
with the raw reference as the key. -/
def refIndex (clusters : Registry) : ClusterRef → Option Cluster
  | .name s => clusters.lookup s
  | .cluster _ => none

/-- String rendering of a reference, Python percent-s formatting. -/
def refStr : ClusterRef → String
  | .name s => s
  | .cluster c => clusterStr c

/-- Name carried by a reference (for a resolved object, its name field). -/
def refName : ClusterRef → String
  | .name s => s
  | .cluster c => c.name

/-- Which base client implementation is selected: HookedAuroraClientAPI or
the plain AuroraClientAPI. -/
inductive Variant
  | hooked
  | plain
deriving DecidableEq, Repr

/-- Constructed API client.
Modelled from the spec: AuroraClientAPI and HookedAuroraClientAPI are not
part of the analysed source; the spec describes two interchangeable client
implementations whose constructor accepts the resolved cluster descriptor,
the user agent, the verbosity flag and any extra arguments, all recorded
here verbatim. -/
structure ClientInstance where
  variant : Variant
  cluster : Cluster
  user_agent : String
  verbose : Bool
  extra : List String
deriving DecidableEq, Repr

/-- Constructor of the selected base implementation: the super constructor
call inside TwitterAuroraClientAPI. -/
def baseInit (variant : Variant) (cluster : Cluster) (user_agent : String)
    (verbose : Bool) (extra : List String) : ClientInstance :=
  ⟨variant, cluster, user_agent, verbose, extra⟩

/-- Failure outcomes of the bound constructor. The die constructor is the
external fail-fast primitive of the spec (emit a diagnostic and terminate
the construction attempt); keyError marks a registry indexing that finds no
entry, which the theorems show unreachable. -/
inductive Failure
  | die (msg : String)
  | keyError
deriving DecidableEq, Repr

/-- Ambient process options.
Modelled from the spec: twitter.common app.get_options is not part of the
analysed source; the spec describes a process-wide verbosity setting read
once at factory-creation time, defaulting to normal when absent. -/
structure Options where
  verbosity : Option String
deriving DecidableEq, Repr

/-- Reading of the ambient verbosity, Python
getattr(app.get_options(), verbosity, normal). -/
def getVerbosity (opts : Options) : String :=
  opts.verbosity.getD "normal"

/-- Result of make_client_factory: the functools partial application that
fixes the base-class choice together with user_agent and verbose. -/
structure Factory where
  variant : Variant
  user_agent : String
  verbose : Bool
deriving DecidableEq, Repr

/-- Embedding of make_client_factory(user_agent, enable_hooks=True): read
the ambient verbosity once, select the base class from enable_hooks, and
return the bound constructor with user_agent and verbose fixed. The opts
argument is the ambient options value at creation time. -/
def make_client_factory (opts : Options) (user_agent : String)
    (enable_hooks : Bool := true) : Factory :=
  ⟨if enable_hooks then Variant.hooked else Variant.plain,
    user_agent,
    getVerbosity opts == "verbose"⟩

/-- Embedding of the bound constructor, TwitterAuroraClientAPI with the
partial application applied: if the raw reference is not in CLUSTERS, die
with the unknown-cluster diagnostic; otherwise index CLUSTERS with the raw
reference and delegate to the selected base constructor, passing the
captured user_agent and verbose and forwarding the extra arguments. -/
def boundConstructor (f : Factory) (clusters : Registry)
    (cluster : ClusterRef) (extra : List String) :
    Except Failure ClientInstance :=
  if refInClusters clusters cluster then
    match refIndex clusters cluster with
    | some desc =>
        Except.ok (baseInit f.variant desc f.user_agent f.verbose extra)
    | none => Except.error Failure.keyError
  else
    Except.error (Failure.die ("Unknown cluster: " ++ refStr cluster))

/-- Embedding of make_client(cluster, user_agent, enable_hooks=True): build
a factory, then apply it to the name of the cluster when the reference is a
resolved Cluster object, or to the reference itself otherwise. -/
def make_client (clusters : Registry) (opts : Options)
    (cluster : ClusterRef) (user_agent : String)
    (enable_hooks : Bool := true) : Except Failure ClientInstance :=
  let factory := make_client_factory opts user_agent enable_hooks
  boundConstructor factory clusters
    (match cluster with
      | .cluster c => .name c.name
      | r => r) []

/-- Specification-side composition, written from the words of the spec for
comparison with make_client: create_factory(user_agent, hooks_enabled)
immediately applied to the name-extracted cluster reference. -/
def create_client_spec (clusters : Registry) (opts : Options)
    (cluster : ClusterRef) (user_agent : String)
    (enable_hooks : Bool := true) : Except Failure ClientInstance :=
  boundConstructor (make_client_factory opts user_agent enable_hooks)
    clusters (.name (refName cluster)) []

/-- Run in which the ambient verbosity is modified after factory creation:
the factory is created while opts0 is the ambient options value, the
ambient verbosity is then set to newVerbosity, and the bound constructor is
finally invoked. The bound constructor in the source never consults
app.get_options(), so the call step depends only on the captured factory. -/
def applyAfterAmbientChange (opts0 : Options) (newVerbosity : Option String)
    (user_agent : String) (enable_hooks : Bool) (clusters : Registry)
    (cluster : ClusterRef) (extra : List String) :
    Except Failure ClientInstance :=
  let factory := make_client_factory opts0 user_agent enable_hooks
  let _optsAtCall : Options := ⟨newVerbosity⟩
  boundConstructor factory clusters cluster extra

/-- Sample descriptor used by the concrete witnesses. -/
def westCluster : Cluster :=
  ⟨"west", "zookeeper://west.example.com:2181", "us-west-1"⟩

/-- Sample registry containing a single cluster named west. -/
def sampleRegistry : Registry := [("west", westCluster)]

/-- Sample ambient options with no verbosity attribute set. -/
def defaultOptions : Options := ⟨none⟩

/-- Helper: the bound constructor on a name absent from the registry takes
the die branch with the diagnostic naming that cluster. -/
theorem boundConstructor_not_found (f : AuroraFactory.Factory)
    (clusters : AuroraFactory.Registry) (s : String) (extra : List String)
    (h : clusters.lookup s = none) :
    AuroraFactory.boundConstructor f clusters (.name s) extra
      = Except.error (AuroraFactory.Failure.die ("Unknown cluster: " ++ s)) := by
  simp [AuroraFactory.boundConstructor, AuroraFactory.refInClusters,
    AuroraFactory.refStr, h]

/-- Helper: the bound constructor on a registered name delegates to the
base constructor on the registry entry. -/
theorem boundConstructor_found (f : AuroraFactory.Factory)
    (clusters : AuroraFactory.Registry) (s : String)
    (desc : AuroraFactory.Cluster) (extra : List String)
    (h : clusters.lookup s = some desc) :
    AuroraFactory.boundConstructor f clusters (.name s) extra
      = Except.ok (AuroraFactory.baseInit f.variant desc f.user_agent
          f.verbose extra) := by
  simp [AuroraFactory.boundConstructor, AuroraFactory.refInClusters,
    AuroraFactory.refIndex, h]

/-- Helper: make_client is the bound constructor of a fresh factory applied
to the name extracted from the reference, with no extra arguments. -/
theorem make_client_eq_bound (clusters : AuroraFactory.Registry)
    (opts : AuroraFactory.Options) (r : AuroraFactory.ClusterRef)
    (ua : String) (eh : Bool) :
    AuroraFactory.make_client clusters opts r ua eh
      = AuroraFactory.boundConstructor
          (AuroraFactory.make_client_factory opts ua eh) clusters
          (.name (AuroraFactory.refName r)) [] := by
  cases r <;> rfl

/-- C1: for every cluster reference whose name has no entry in the registry,
create_client emits the unknown-cluster diagnostic naming that cluster and
returns no client, and the bound constructor invoked directly with that name
does the same; the result is the die failure, so the base implementation
constructor is never reached on this path. -/
theorem c1_unknown_cluster_fails_fast (f : AuroraFactory.Factory)
    (clusters : AuroraFactory.Registry) (opts : AuroraFactory.Options)
    (r : AuroraFactory.ClusterRef) (extra : List String) (ua : String)
    (eh : Bool) (h : clusters.lookup (AuroraFactory.refName r) = none) :
    AuroraFactory.make_client clusters opts r ua eh
        = Except.error (AuroraFactory.Failure.die
            ("Unknown cluster: " ++ AuroraFactory.refName r))
      ∧ AuroraFactory.boundConstructor f clusters
            (.name (AuroraFactory.refName r)) extra
        = Except.error (AuroraFactory.Failure.die
            ("Unknown cluster: " ++ AuroraFactory.refName r)) := by
  refine ⟨?_, boundConstructor_not_found f clusters _ extra h⟩
  rw [make_client_eq_bound]
  exact boundConstructor_not_found _ clusters _ [] h

/-- Witness for C1 at the empty registry and the name nowhere. -/
theorem c1_witness :
    AuroraFactory.make_client [] AuroraFactory.defaultOptions
        (.name "nowhere") "agent/1.0" true
        = Except.error (AuroraFactory.Failure.die
            ("Unknown cluster: " ++ AuroraFactory.refName (.name "nowhere")))
      ∧ AuroraFactory.boundConstructor ⟨.hooked, "agent/1.0", false⟩ []
            (.name (AuroraFactory.refName (.name "nowhere"))) []
        = Except.error (AuroraFactory.Failure.die
            ("Unknown cluster: " ++ AuroraFactory.refName (.name "nowhere"))) :=
  c1_unknown_cluster_fails_fast ⟨.hooked, "agent/1.0", false⟩ []
    AuroraFactory.defaultOptions (.name "nowhere") [] "agent/1.0" true rfl

/-- C2: for every cluster name present in the registry, create_client
returns a client whose bound cluster descriptor is exactly the registry
entry for that name, carrying the given user agent. -/
theorem c2_valid_cluster_binds_registry_entry
    (clusters : AuroraFactory.Registry) (opts : AuroraFactory.Options)
    (c : String) (desc : AuroraFactory.Cluster) (ua : String) (eh : Bool)
    (h : clusters.lookup c = some desc) :
    ∃ inst, AuroraFactory.make_client clusters opts (.name c) ua eh
        = Except.ok inst
      ∧ inst.cluster = desc ∧ inst.user_agent = ua := by
  refine ⟨AuroraFactory.baseInit
      (AuroraFactory.make_client_factory opts ua eh).variant desc ua
      (AuroraFactory.getVerbosity opts == "verbose") [], ?_, rfl, rfl⟩
  rw [make_client_eq_bound]
  exact boundConstructor_found _ clusters c desc [] h

/-- Witness for C2 at the sample registry and the name west. -/
theorem c2_witness :
    ∃ inst, AuroraFactory.make_client AuroraFactory.sampleRegistry
        AuroraFactory.defaultOptions (.name "west") "agent/1.0" true
        = Except.ok inst
      ∧ inst.cluster = AuroraFactory.westCluster
      ∧ inst.user_agent = "agent/1.0" :=
  c2_valid_cluster_binds_registry_entry AuroraFactory.sampleRegistry
    AuroraFactory.defaultOptions "west" AuroraFactory.westCluster
    "agent/1.0" true rfl

/-- Helper: a successful run of the bound constructor fixes every field of
the produced client from the factory, the registry and the call. -/
theorem boundConstructor_ok_fields (f : AuroraFactory.Factory)
    (clusters : AuroraFactory.Registry) (r : AuroraFactory.ClusterRef)
    (extra : List String) (inst : AuroraFactory.ClientInstance)
    (h : AuroraFactory.boundConstructor f clusters r extra = Except.ok inst) :
    inst.user_agent = f.user_agent ∧ inst.verbose = f.verbose
      ∧ inst.variant = f.variant ∧ inst.extra = extra
      ∧ AuroraFactory.refIndex clusters r = some inst.cluster := by
  rw [AuroraFactory.boundConstructor] at h
  split at h
  · split at h
    · cases h
      exact ⟨rfl, rfl, rfl, rfl, by assumption⟩
    · exact absurd h (by simp)
  · exact absurd h (by simp)

/-- Helper: when the membership test succeeds, indexing the registry with
the same reference finds an entry. -/
theorem refIndex_isSome_of_mem (clusters : AuroraFactory.Registry)
    (r : AuroraFactory.ClusterRef)
    (h : AuroraFactory.refInClusters clusters r = true) :
    (AuroraFactory.refIndex clusters r).isSome := by
  cases r <;>
    simp_all [AuroraFactory.refInClusters, AuroraFactory.refIndex]

/-- C3 counterexample: with the cluster west registered, the bound
constructor succeeds on the name west but fails when invoked directly with
the resolved west cluster object, refuting that both forms succeed. -/
theorem c3_counterexample :
    (AuroraFactory.boundConstructor ⟨.hooked, "agent/1.0", false⟩
        AuroraFactory.sampleRegistry
        (.cluster AuroraFactory.westCluster) []).isOk = false
      ∧ (AuroraFactory.boundConstructor ⟨.hooked, "agent/1.0", false⟩
        AuroraFactory.sampleRegistry (.name "west") []).isOk = true := by
  exact ⟨rfl, rfl⟩

/-- C3 amended: the bound constructor performs the registry lookup on the
reference exactly as given, without extracting a name: a registered name
succeeds, while a resolved cluster object always takes the unknown-cluster
failure path, even when its name is registered; name extraction is done
only by make_client before the factory is applied. -/
theorem c3_amended_no_name_extraction (f : AuroraFactory.Factory)
    (clusters : AuroraFactory.Registry) (c : AuroraFactory.Cluster)
    (s : String) (desc : AuroraFactory.Cluster) (extra : List String)
    (h : clusters.lookup s = some desc) :
    AuroraFactory.boundConstructor f clusters (.cluster c) extra
        = Except.error (AuroraFactory.Failure.die
            ("Unknown cluster: " ++ AuroraFactory.clusterStr c))
      ∧ AuroraFactory.boundConstructor f clusters (.name s) extra
        = Except.ok (AuroraFactory.baseInit f.variant desc f.user_agent
            f.verbose extra) := by
  exact ⟨rfl, boundConstructor_found f clusters s desc extra h⟩

/-- Witness for the amended C3 at the sample registry, the west object and
the name west. -/
theorem c3_amended_witness :
    AuroraFactory.boundConstructor ⟨.hooked, "agent/1.0", false⟩
        AuroraFactory.sampleRegistry
        (.cluster AuroraFactory.westCluster) []
        = Except.error (AuroraFactory.Failure.die ("Unknown cluster: "
            ++ AuroraFactory.clusterStr AuroraFactory.westCluster))
      ∧ AuroraFactory.boundConstructor ⟨.hooked, "agent/1.0", false⟩
        AuroraFactory.sampleRegistry (.name "west") []
        = Except.ok (AuroraFactory.baseInit Variant.hooked
            AuroraFactory.westCluster "agent/1.0" false []) :=
  c3_amended_no_name_extraction ⟨.hooked, "agent/1.0", false⟩
    AuroraFactory.sampleRegistry AuroraFactory.westCluster "west"
    AuroraFactory.westCluster [] rfl

/-- C4: every client produced by the bound constructor of a factory created
with a given user_agent carries exactly that user_agent and exactly the
verbosity captured at factory creation, whatever the cluster reference and
extra arguments of the call. -/
theorem c4_configuration_propagation (opts : AuroraFactory.Options)
    (ua : String) (eh : Bool) (clusters : AuroraFactory.Registry)
    (r : AuroraFactory.ClusterRef) (extra : List String)
    (inst : AuroraFactory.ClientInstance)
    (h : AuroraFactory.boundConstructor
        (AuroraFactory.make_client_factory opts ua eh) clusters r extra
        = Except.ok inst) :
    inst.user_agent = ua
      ∧ inst.verbose = (AuroraFactory.getVerbosity opts == "verbose") := by
  obtain ⟨h1, h2, -⟩ := boundConstructor_ok_fields _ clusters r extra inst h
  exact ⟨h1, h2⟩

/-- Witness for C4 at the sample registry, user agent X and no verbosity. -/
theorem c4_witness :
    (AuroraFactory.baseInit .hooked AuroraFactory.westCluster "X" false
        []).user_agent = "X"
      ∧ (AuroraFactory.baseInit .hooked AuroraFactory.westCluster "X" false
        []).verbose
        = (AuroraFactory.getVerbosity AuroraFactory.defaultOptions
            == "verbose") :=
  c4_configuration_propagation AuroraFactory.defaultOptions "X" true
    AuroraFactory.sampleRegistry (.name "west") []
    (AuroraFactory.baseInit .hooked AuroraFactory.westCluster "X" false [])
    rfl

/-- C5: with enable_hooks true the factory selects the hook-augmented
variant, with false the plain variant, omitting the argument defaults to
true, and both variants receive identical construction arguments: on every
call the two factories agree on everything but the variant tag, including
the failure outcome. -/
theorem c5_hook_toggling (opts : AuroraFactory.Options) (ua : String) :
    (AuroraFactory.make_client_factory opts ua true).variant
        = AuroraFactory.Variant.hooked
      ∧ (AuroraFactory.make_client_factory opts ua false).variant
        = AuroraFactory.Variant.plain
      ∧ AuroraFactory.make_client_factory opts ua
        = AuroraFactory.make_client_factory opts ua true
      ∧ ∀ (clusters : AuroraFactory.Registry) (r : AuroraFactory.ClusterRef)
          (extra : List String),
          (AuroraFactory.boundConstructor
              (AuroraFactory.make_client_factory opts ua true) clusters r
              extra).map
              (fun i => (i.cluster, i.user_agent, i.verbose, i.extra))
            = (AuroraFactory.boundConstructor
              (AuroraFactory.make_client_factory opts ua false) clusters r
              extra).map
              (fun i => (i.cluster, i.user_agent, i.verbose, i.extra)) := by
  refine ⟨rfl, rfl, rfl, ?_⟩
  intro clusters r extra
  rw [AuroraFactory.boundConstructor, AuroraFactory.boundConstructor]
  split
  · split <;> rfl
  · rfl

/-- C6: the verbosity is captured when make_client_factory runs and is
never re-read by the bound constructor: changing the ambient verbosity to
any value after factory creation leaves every subsequent construction
unchanged, and each produced client carries the creation-time capture. -/
theorem c6_verbosity_captured_once (opts : AuroraFactory.Options)
    (v₁ v₂ : Option String) (ua : String) (eh : Bool)
    (clusters : AuroraFactory.Registry) (r : AuroraFactory.ClusterRef)
    (extra : List String) :
    AuroraFactory.applyAfterAmbientChange opts v₁ ua eh clusters r extra
        = AuroraFactory.applyAfterAmbientChange opts v₂ ua eh clusters r
            extra
      ∧ ∀ inst,
          AuroraFactory.applyAfterAmbientChange opts v₁ ua eh clusters r
              extra = Except.ok inst →
          inst.verbose = (AuroraFactory.getVerbosity opts == "verbose") := by
  refine ⟨rfl, ?_⟩
  intro inst h
  exact (boundConstructor_ok_fields _ clusters r extra inst h).2.1

/-- Witness for C6 with verbosity flipped to verbose after creation. -/
theorem c6_witness :
    (AuroraFactory.baseInit .hooked AuroraFactory.westCluster "agent/1.0"
        false []).verbose
      = (AuroraFactory.getVerbosity AuroraFactory.defaultOptions
          == "verbose") :=
  (c6_verbosity_captured_once AuroraFactory.defaultOptions (some "verbose")
      (some "normal") "agent/1.0" true AuroraFactory.sampleRegistry
      (.name "west") []).2
    (AuroraFactory.baseInit .hooked AuroraFactory.westCluster "agent/1.0"
      false []) rfl

/-- C8: the captured verbose flag is true exactly when the ambient
verbosity setting equals verbose; an absent setting reads as normal, so a
factory created with no ambient verbosity produces only non-verbose
clients. -/
theorem c8_verbosity_default (opts : AuroraFactory.Options) (ua : String)
    (eh : Bool) (clusters : AuroraFactory.Registry)
    (r : AuroraFactory.ClusterRef) (extra : List String) :
    ((AuroraFactory.make_client_factory opts ua eh).verbose = true
        ↔ AuroraFactory.getVerbosity opts = "verbose")
      ∧ AuroraFactory.getVerbosity ⟨none⟩ = "normal"
      ∧ ∀ inst,
          AuroraFactory.boundConstructor
              (AuroraFactory.make_client_factory ⟨none⟩ ua eh) clusters r
              extra = Except.ok inst →
          inst.verbose = false := by
  refine ⟨by simp [AuroraFactory.make_client_factory], rfl, ?_⟩
  intro inst h
  exact (boundConstructor_ok_fields _ clusters r extra inst h).2.1

/-- Witness for C8 at the sample registry with no verbosity set. -/
theorem c8_witness :
    (AuroraFactory.baseInit .plain AuroraFactory.westCluster "agent/1.0"
        false []).verbose = false :=
  (c8_verbosity_default ⟨none⟩ "agent/1.0" false
      AuroraFactory.sampleRegistry (.name "west") []).2.2
    (AuroraFactory.baseInit .plain AuroraFactory.westCluster "agent/1.0"
      false []) rfl

/-- C10: the registry indexing in the bound constructor is guarded by the
membership test, so indexing never fails: no run yields the keyError
outcome, and on every successful run the descriptor bound into the client
is the registry entry at exactly the checked name. -/
theorem c10_guarded_lookup (f : AuroraFactory.Factory)
    (clusters : AuroraFactory.Registry) (r : AuroraFactory.ClusterRef)
    (extra : List String) :
    AuroraFactory.boundConstructor f clusters r extra
        ≠ Except.error AuroraFactory.Failure.keyError
      ∧ ∀ (s : String) (inst : AuroraFactory.ClientInstance),
          AuroraFactory.boundConstructor f clusters (.name s) extra
              = Except.ok inst →
          clusters.lookup s = some inst.cluster := by
  constructor
  · intro hcontra
    rw [AuroraFactory.boundConstructor] at hcontra
    split at hcontra
    · rename_i hmem
      split at hcontra
      · exact absurd hcontra (by simp)
      · rename_i hidx
        have := refIndex_isSome_of_mem clusters r hmem
        rw [hidx] at this
        exact absurd this (by simp)
    · exact absurd hcontra (by simp)
  · intro s inst h
    exact (boundConstructor_ok_fields f clusters (.name s) extra inst h).2.2.2.2

/-- Witness for C10 at the sample registry and the name west. -/
theorem c10_witness :
    AuroraFactory.sampleRegistry.lookup "west"
      = some (AuroraFactory.baseInit .plain AuroraFactory.westCluster
          "agent/1.0" false []).cluster :=
  (c10_guarded_lookup ⟨.plain, "agent/1.0", false⟩
      AuroraFactory.sampleRegistry (.name "west") []).2 "west"
    (AuroraFactory.baseInit .plain AuroraFactory.westCluster "agent/1.0"
      false []) rfl

/-- C7: passing a resolved cluster object to create_client behaves
identically to passing its name directly, for every cluster object and
every registry, user agent and hook setting: make_client extracts the name
before applying the factory. -/
theorem c7_reference_normalization (clusters : AuroraFactory.Registry)
    (opts : AuroraFactory.Options) (c : AuroraFactory.Cluster) (ua : String)
    (eh : Bool) :
    AuroraFactory.make_client clusters opts (.cluster c) ua eh
      = AuroraFactory.make_client clusters opts (.name c.name) ua eh := rfl

/-- C9: create_client is the composition of create_factory and immediate
application to the name-extracted reference, a pure function of its
arguments, so each invocation is independent of previous ones. -/
theorem c9_composition (clusters : AuroraFactory.Registry)
    (opts : AuroraFactory.Options) (r : AuroraFactory.ClusterRef)
    (ua : String) (eh : Bool) :
    AuroraFactory.make_client clusters opts r ua eh
      = AuroraFactory.create_client_spec clusters opts r ua eh := by
  cases r <;> rfl

end AuroraFactory
